import Mathlib

/-!
Shallow embedding of the Traffic-Sense repository (simulation engine and
analytics) and proofs of the behavioural claims about it.

Conventions of the embedding:
* Python floats are modelled as `ℝ` where the code takes square roots
  (kinematics, despawn distance, travel-time reconstruction) and as `ℚ`
  where all arithmetic is rational (congestion classification and the
  spatial grid), keeping those parts fully computable.
* Calls to the ambient random source (`random.random`, `random.uniform`,
  `random.randint`, …) are modelled as explicit parameters; theorems that
  need the distribution's support state it as a hypothesis.
* `datetime.now()` is modelled as an abstract tick counter `ℕ` passed in.
* The persistence sink is modelled by a failure predicate on vehicle
  identifiers: `true` means the corresponding insert raises.
-/

namespace TrafficSense

/-- `models.Vehicle` (dataclass): the timestamp is an abstract instant. -/
structure Vehicle where
  vehicle_id : String
  vehicle_type : String
  current_speed : ℝ
  max_speed : ℝ
  route_id : String
  position_x : ℝ
  position_y : ℝ
  timestamp : ℕ

/-- `models.Route` (dataclass); `distance_km`, `route_name` and
`speed_limit` are carried but unused by the claims below. -/
structure Route where
  route_id : String
  start_x : ℝ
  start_y : ℝ
  end_x : ℝ
  end_y : ℝ

/-- `TrafficSimulation._get_route_by_id`: linear scan returning the first
route whose identifier matches, `None` otherwise. -/
def getRouteById (routes : List Route) (route_id : String) : Option Route :=
  routes.find? (fun r => r.route_id == route_id)

/-- `TrafficAnalytics._classify_congestion` with the instance thresholds
`high_congestion_speed_threshold = 30`,
`medium_congestion_speed_threshold = 50`,
`min_vehicles_for_congestion = 5`. -/
def classifyCongestion (avg_speed : ℚ) (vehicle_count : ℕ) : String :=
  if avg_speed ≤ 30 ∧ 10 ≤ vehicle_count then "high"
  else if avg_speed ≤ 50 ∧ 7 ≤ vehicle_count then "medium"
  else if 5 ≤ vehicle_count then "low"
  else "none"

/-- `TrafficSimulation._update_vehicle_position`.  The value drawn by
`random.uniform(-max_speed * 0.2, max_speed * 0.2)` is passed in as
`speed_variation`; `datetime.now()` is passed in as `now`.  A vehicle whose
route is not found is returned unchanged. -/
noncomputable def updateVehiclePosition (routes : List Route) (speed_variation : ℝ)
    (now : ℕ) (v : Vehicle) : Vehicle :=
  match getRouteById routes v.route_id with
  | none => v
  | some route =>
    let time_delta : ℝ := 0.1
    let distance_traveled : ℝ := v.current_speed * time_delta
    let dx : ℝ := route.end_x - route.start_x
    let dy : ℝ := route.end_y - route.start_y
    let total_distance : ℝ := Real.sqrt (dx ^ 2 + dy ^ 2)
    let px : ℝ :=
      if 0 < total_distance then v.position_x + dx / total_distance * distance_traveled
      else v.position_x
    let py : ℝ :=
      if 0 < total_distance then v.position_y + dy / total_distance * distance_traveled
      else v.position_y
    let new_speed : ℝ := max 0 (min v.max_speed (v.current_speed + speed_variation))
    { v with position_x := px, position_y := py, current_speed := new_speed,
             timestamp := now }

/-- The rush-hour test of `TrafficSimulation._simulate_congestion`:
`(7 <= current_hour <= 9) or (17 <= current_hour <= 19)` where
`current_hour = datetime.now().hour`. -/
def isRushHour (hour : ℕ) : Bool :=
  decide ((7 ≤ hour ∧ hour ≤ 9) ∨ (17 ≤ hour ∧ hour ≤ 19))

/-- `datetime.now().hour` as a function of the local time expressed in
minutes since midnight. -/
def hourOfMinutes (minutes_of_day : ℕ) : ℕ :=
  minutes_of_day / 60

/-- The value `_simulate_congestion` assigns to `self.vehicle_spawn_rate`. -/
def spawnRateAfterCongestion (hour : ℕ) : ℚ :=
  if isRushHour hour then 0.5 else 0.3

/-- The `congestion_factor` chosen by `_simulate_congestion`. -/
noncomputable def congestionFactor (hour : ℕ) : ℝ :=
  if isRushHour hour then 0.6 else 1.0

/-- The per-vehicle body of `_simulate_congestion`: with probability 0.3
(`draw < 0.3`) the speed is multiplied by the congestion factor and then
floored at the minimum speed 5. -/
noncomputable def simulateCongestionVehicle (hour : ℕ) (draw : ℝ) (v : Vehicle) : Vehicle :=
  if draw < 0.3 then
    { v with current_speed := max 5 (v.current_speed * congestionFactor hour) }
  else v

/-- `TrafficSimulation._simulate_congestion` over the whole registry:
returns the new `vehicle_spawn_rate` and the modulated vehicles.  The
per-vehicle `random.random()` draws are supplied by `draws`, keyed by
vehicle identifier. -/
noncomputable def simulateCongestion (hour : ℕ) (draws : String → ℝ)
    (vehicles : List Vehicle) : ℚ × List Vehicle :=
  (spawnRateAfterCongestion hour,
   vehicles.map (fun v => simulateCongestionVehicle hour (draws v.vehicle_id) v))

/-- The `distance_to_end` computed by `TrafficSimulation._remove_vehicles`. -/
noncomputable def distanceToEnd (v : Vehicle) (route : Route) : ℝ :=
  Real.sqrt ((v.position_x - route.end_x) ^ 2 + (v.position_y - route.end_y) ^ 2)

/-- The per-vehicle removal condition of `_remove_vehicles`: a vehicle with
no route is removed unconditionally; otherwise it is removed when it is
within 50 units of the route end or its `random.random()` draw is below the
despawn rate 0.1. -/
noncomputable def shouldRemove (routes : List Route) (draw : ℝ) (v : Vehicle) : Bool :=
  match getRouteById routes v.route_id with
  | none => true
  | some route => if distanceToEnd v route < 50 ∨ draw < 0.1 then true else false

/-- `TrafficSimulation._remove_vehicles`: collect then delete, i.e. keep
exactly the vehicles whose removal condition is false. -/
noncomputable def removeVehicles (routes : List Route) (draws : String → ℝ)
    (vehicles : List Vehicle) : List Vehicle :=
  vehicles.filter (fun v => ! shouldRemove routes (draws v.vehicle_id) v)

/-- `self.max_vehicles_per_route`. -/
def maxVehiclesPerRoute : ℕ := 20

/-- The random values consumed when `_spawn_new_vehicles` processes one
route: the `random.random()` spawn draw, the `random.randint(1000, 9999)`
identifier suffix, and the attribute draws made by
`Vehicle.generate_random`. -/
structure SpawnRand where
  draw : ℚ
  idnum : ℕ
  vtype : String
  max_speed : ℝ
  current_speed : ℝ
  pos_x : ℝ
  pos_y : ℝ
  now : ℕ

/-- `models.Vehicle.generate_random` with every random draw (category,
maximum speed, current speed, initial position) passed in explicitly. -/
def Vehicle.generate_random (vehicle_id route_id vehicle_type : String)
    (max_speed current_speed pos_x pos_y : ℝ) (now : ℕ) : Vehicle :=
  { vehicle_id := vehicle_id, vehicle_type := vehicle_type,
    current_speed := current_speed, max_speed := max_speed,
    route_id := route_id, position_x := pos_x, position_y := pos_y,
    timestamp := now }

/-- The `vehicles_on_route` count of `_spawn_new_vehicles`. -/
def countOnRoute (vehicles : List Vehicle) (route_id : String) : ℕ :=
  (vehicles.filter (fun v => v.route_id == route_id)).length

/-- The identifier string built by `_spawn_new_vehicles`:
`f"{route.route_id}_v{random.randint(1000, 9999)}"`. -/
def spawnVehicleId (route : Route) (r : SpawnRand) : String :=
  route.route_id ++ "_v" ++ toString r.idnum

/-- The vehicle inserted by one successful spawn: `Vehicle.generate_random`
followed by repositioning at the route start point. -/
def spawnedVehicle (route : Route) (r : SpawnRand) : Vehicle :=
  { Vehicle.generate_random (spawnVehicleId route r) route.route_id r.vtype
      r.max_speed r.current_speed r.pos_x r.pos_y r.now with
    position_x := route.start_x, position_y := route.start_y }

/-- One iteration of the loop in `TrafficSimulation._spawn_new_vehicles`:
spawn a vehicle at the route start when the per-route count is under the
limit, the spawn draw succeeds, and the generated identifier is free. -/
def spawnOnRoute (spawn_rate : ℚ) (vehicles : List Vehicle) (r : SpawnRand)
    (route : Route) : List Vehicle :=
  if countOnRoute vehicles route.route_id < maxVehiclesPerRoute ∧ r.draw < spawn_rate then
    if vehicles.all (fun v => ! (v.vehicle_id == spawnVehicleId route r)) then
      vehicles ++ [spawnedVehicle route r]
    else vehicles
  else vehicles

/-- `TrafficSimulation._spawn_new_vehicles`: run the per-route body over
the route list in order, each route consuming its own bundle of random
draws. -/
def spawnNewVehicles (spawn_rate : ℚ) : List (Route × SpawnRand) → List Vehicle → List Vehicle
  | [], vehicles => vehicles
  | p :: rest, vehicles =>
      spawnNewVehicles spawn_rate rest (spawnOnRoute spawn_rate vehicles p.2 p.1)

/-- The update-and-persist loop at the top of
`TrafficSimulation._simulation_step`.  Returns the registry contents, the
identifiers successfully persisted, and whether a sink exception aborted
the loop.  Python updates each vehicle in place before persisting it, so
when the sink raises on a vehicle, that vehicle is already updated in
memory, the vehicles after it are untouched, and nothing further runs. -/
noncomputable def persistPhase (routes : List Route) (variations : String → ℝ) (now : ℕ)
    (fail : String → Bool) : List Vehicle → List Vehicle × List String × Bool
  | [] => ([], [], false)
  | v :: rest =>
    let v' := updateVehiclePosition routes (variations v.vehicle_id) now v
    if fail v'.vehicle_id then (v' :: rest, [], true)
    else
      let out := persistPhase routes variations now fail rest
      (v' :: out.1, v'.vehicle_id :: out.2.1, out.2.2)

/-- The in-memory state `_simulation_step` reads and writes. -/
structure SimState where
  vehicles : List Vehicle
  spawn_rate : ℚ

/-- `TrafficSimulation._simulation_step`: the whole tick body runs inside
one `try`, so an exception from the sink skips the rest of the tick (the
remaining vehicle updates, spawning, despawning and congestion modulation)
but is caught, leaving the loop alive.  Returns the next state and the
list of persisted vehicle identifiers. -/
noncomputable def simulationStep (routes : List Route) (variations : String → ℝ)
    (now : ℕ) (fail : String → Bool) (spawn_rands : List SpawnRand)
    (despawn_draws : String → ℝ) (hour : ℕ) (congestion_draws : String → ℝ)
    (st : SimState) : SimState × List String :=
  let out := persistPhase routes variations now fail st.vehicles
  if out.2.2 then ({ st with vehicles := out.1 }, out.2.1)
  else
    let afterSpawn := spawnNewVehicles st.spawn_rate (routes.zip spawn_rands) out.1
    let afterRemove := removeVehicles routes despawn_draws afterSpawn
    let cong := simulateCongestion hour congestion_draws afterRemove
    ({ vehicles := cong.2, spawn_rate := cong.1 }, out.2.1)

/-- A row of the traffic-data frame consumed by the travel-time
estimator. -/
structure Sample where
  vehicle_id : String
  position_x : ℝ
  position_y : ℝ
  speed : ℝ
  timestamp : ℕ

/-- The summation loop of `TrafficAnalytics._estimate_route_distance`:
each consecutive leg's Euclidean length is divided by 100 (position units
per kilometre) and the legs are summed. -/
noncomputable def pathDistance : List Sample → ℝ
  | a :: b :: rest =>
      Real.sqrt ((b.position_x - a.position_x) ^ 2 + (b.position_y - a.position_y) ^ 2) / 100
        + pathDistance (b :: rest)
  | _ => 0

/-- `TrafficAnalytics._estimate_route_distance`: zero for fewer than two
samples, otherwise the reconstructed distance floored at 0.1 km. -/
noncomputable def estimateRouteDistance (vehicle_data : List Sample) : ℝ :=
  if vehicle_data.length < 2 then 0 else max (pathDistance vehicle_data) 0.1

/-- The `avg_speed = vehicle_data['speed'].mean()` of
`calculate_average_travel_times`. -/
noncomputable def meanSpeed (vehicle_data : List Sample) : ℝ :=
  (vehicle_data.map Sample.speed).sum / vehicle_data.length

/-- The per-vehicle body of `calculate_average_travel_times`: a vehicle
with at least two time-ordered samples and positive mean speed contributes
`(estimated_distance / avg_speed) * 60` minutes, otherwise nothing. -/
noncomputable def vehicleTravelTime (vehicle_data : List Sample) : Option ℝ :=
  if 2 ≤ vehicle_data.length then
    if 0 < meanSpeed vehicle_data then
      some (estimateRouteDistance vehicle_data / meanSpeed vehicle_data * 60)
    else none
  else none

/-- The per-route part of `calculate_average_travel_times`: the
contributing estimates of one route's vehicles; a route whose list is
empty appends no summary row, modelled as `none`. -/
noncomputable def routeTravelTimes (vehicles_data : List (List Sample)) : Option (List ℝ) :=
  let ts := vehicles_data.filterMap vehicleTravelTime
  if ts.isEmpty then none else some ts

/-- A positional sample as seen by the congestion detector. -/
structure QSample where
  x : ℚ
  y : ℚ
  speed : ℚ
deriving DecidableEq

/-- `numpy.arange(start, stop, step)` for a positive step: the values
`start + i * step` for `i < ⌈(stop - start) / step⌉`. -/
def arange (start stop step : ℚ) : List ℚ :=
  (List.range (Int.ceil ((stop - start) / step)).toNat).map
    (fun i : ℕ => start + (i : ℚ) * step)

/-- `self.congestion_area_radius`, the grid cell side. -/
def gridSize : ℚ := 100

/-- The bin edges `np.arange(lo, hi + grid_size, grid_size)` of
`_analyze_route_congestion`. -/
def binsFor (lo hi : ℚ) : List ℚ :=
  arange lo (hi + gridSize) gridSize

/-- Membership of a coordinate in grid cell `i`: at least the lower edge
and strictly below the upper edge (`>= x_start` and `< x_end`). -/
def cellContains (bins : List ℚ) (i : ℕ) (x : ℚ) : Bool :=
  match bins[i]?, bins[i + 1]? with
  | some lo, some hi => decide (lo ≤ x ∧ x < hi)
  | _, _ => false

/-- `pandas.Series.min` on a nonempty column. -/
def listMin : List ℚ → ℚ
  | [] => 0
  | a :: rest => rest.foldl min a

/-- `pandas.Series.max` on a nonempty column. -/
def listMax : List ℚ → ℚ
  | [] => 0
  | a :: rest => rest.foldl max a

/-- The `x_bins` of `_analyze_route_congestion`. -/
def xBins (samples : List QSample) : List ℚ :=
  binsFor (listMin (samples.map QSample.x)) (listMax (samples.map QSample.x))

/-- The `y_bins` of `_analyze_route_congestion`. -/
def yBins (samples : List QSample) : List ℚ :=
  binsFor (listMin (samples.map QSample.y)) (listMax (samples.map QSample.y))

/-- The `cell_vehicles` selection for grid cell `(i, j)`. -/
def cellVehicles (samples : List QSample) (i j : ℕ) : List QSample :=
  samples.filter (fun s =>
    cellContains (xBins samples) i s.x && cellContains (yBins samples) j s.y)

/-- `models.CongestionPoint` restricted to the fields the detector
computes. -/
structure CongestionPoint where
  location_x : ℚ
  location_y : ℚ
  congestion_level : String
  average_speed : ℚ
  vehicle_count : ℕ

/-- The mean of a rational column. -/
def qMean (l : List ℚ) : ℚ :=
  l.sum / l.length

/-- `TrafficAnalytics._analyze_route_congestion`: tile the bounding box of
the samples into cells, and for every cell holding at least
`min_vehicles_for_congestion = 5` samples classify it and emit a
`CongestionPoint` at the cell centre unless the level is `none`. -/
def analyzeRouteCongestion (samples : List QSample) : List CongestionPoint :=
  let xb := xBins samples
  let yb := yBins samples
  (List.range (xb.length - 1)).flatMap (fun i =>
    (List.range (yb.length - 1)).filterMap (fun j =>
      let cell := cellVehicles samples i j
      if 5 ≤ cell.length then
        let avg := qMean (cell.map QSample.speed)
        let lvl := classifyCongestion avg cell.length
        if lvl ≠ "none" then
          some { location_x := (xb.getD i 0 + xb.getD (i + 1) 0) / 2,
                 location_y := (yb.getD j 0 + yb.getD (j + 1) 0) / 2,
                 congestion_level := lvl,
                 average_speed := avg,
                 vehicle_count := cell.length }
        else none
      else none))

/-- A concrete input to the congestion detector whose x bounding box is
`[0, 200]`, a multiple of the grid size: the last generated x edge then
coincides with the bounding-box maximum. -/
def gridSamples : List QSample :=
  [⟨0, 0, 10⟩, ⟨50, 100, 20⟩, ⟨200, 50, 30⟩]

/-- A concrete route from (0, 0) to (3, 4), of length 5. -/
noncomputable def testRoute : Route :=
  { route_id := "r1", start_x := 0, start_y := 0, end_x := 3, end_y := 4 }

/-- A concrete vehicle on `testRoute`. -/
noncomputable def testVehicle : Vehicle :=
  { vehicle_id := "v1", vehicle_type := "car", current_speed := 10, max_speed := 100,
    route_id := "r1", position_x := 0, position_y := 0, timestamp := 0 }

/-- A second concrete vehicle, used by the persistence-failure scenario. -/
noncomputable def cexVehicleB : Vehicle :=
  { vehicle_id := "v2", vehicle_type := "car", current_speed := 20, max_speed := 100,
    route_id := "r1", position_x := 0, position_y := 0, timestamp := 0 }

/-- Registry state holding `testVehicle` and `cexVehicleB` with the default
spawn rate. -/
noncomputable def cexState : SimState :=
  { vehicles := [testVehicle, cexVehicleB], spawn_rate := 0.3 }

/-- A concrete bundle of spawn draws whose spawn test succeeds. -/
noncomputable def testSpawnRand : SpawnRand :=
  { draw := 0, idnum := 1234, vtype := "car", max_speed := 100, current_speed := 40,
    pos_x := 7, pos_y := 9, now := 0 }

/-- A vehicle sitting exactly at `testRoute`'s end point. -/
noncomputable def nearEndVehicle : Vehicle :=
  { vehicle_id := "v3", vehicle_type := "car", current_speed := 10, max_speed := 100,
    route_id := "r1", position_x := 3, position_y := 4, timestamp := 0 }

/-- Detector input with five coincident samples (enough for a `low` cell)
and one far corner sample stretching the bounding box to 200 × 200. -/
def congSamples : List QSample :=
  [⟨0, 0, 10⟩, ⟨0, 0, 10⟩, ⟨0, 0, 10⟩, ⟨0, 0, 10⟩, ⟨0, 0, 10⟩, ⟨200, 200, 50⟩]

/-- Two time-ordered samples 1000 position units (10 km) apart, both at
speed 60. -/
noncomputable def tripSample1 : Sample := ⟨"b1", 0, 0, 60, 0⟩

/-- Second sample of the 10 km trip. -/
noncomputable def tripSample2 : Sample := ⟨"b1", 0, 1000, 60, 1⟩

/-!  Theorems.  One theorem per claim of the specification review; helper
lemmas carry the inductive content. -/

/-- Beyond the generated edges there is no cell: a cell index whose upper
edge does not exist contains nothing. -/
theorem cellContains_of_length_le (bins : List ℚ) (i : ℕ) (x : ℚ)
    (h : bins.length ≤ i + 1) : cellContains bins i x = false := by
  have h2 : bins[i + 1]? = none := by
    rw [List.getElem?_eq_none_iff]; omega
  unfold cellContains
  rw [h2]
  cases bins[i]? <;> rfl

/-- Claim C2: the congestion classification is evaluated in precedence
order — `high` iff speed ≤ 30 and count ≥ 10, else `medium` iff speed ≤ 50
and count ≥ 7, else `low` iff count ≥ 5, else `none`; the spec's four
sample inputs classify as stated, and every emitted `CongestionPoint` has
a non-`none` level and at least 5 samples, so a cell with count 4 emits
nothing. -/
theorem classifyCongestion_precedence :
    (∀ (s : ℚ) (c : ℕ),
      (classifyCongestion s c = "high" ↔ (s ≤ 30 ∧ 10 ≤ c))
      ∧ (classifyCongestion s c = "medium" ↔ (¬(s ≤ 30 ∧ 10 ≤ c) ∧ (s ≤ 50 ∧ 7 ≤ c)))
      ∧ (classifyCongestion s c = "low" ↔
          (¬(s ≤ 30 ∧ 10 ≤ c) ∧ ¬(s ≤ 50 ∧ 7 ≤ c) ∧ 5 ≤ c))
      ∧ (classifyCongestion s c = "none" ↔ c < 5))
    ∧ classifyCongestion 25 12 = "high"
    ∧ classifyCongestion 45 8 = "medium"
    ∧ classifyCongestion 60 5 = "low"
    ∧ (∀ s : ℚ, classifyCongestion s 4 = "none")
    ∧ (∀ (samples : List QSample) (p : CongestionPoint),
        p ∈ analyzeRouteCongestion samples →
          p.congestion_level ≠ "none" ∧ 5 ≤ p.vehicle_count ∧
          p.congestion_level = classifyCongestion p.average_speed p.vehicle_count) := by
  refine ⟨?_, by decide, by decide, by decide, fun s => by norm_num [classifyCongestion], ?_⟩
  · intro s c
    unfold classifyCongestion
    split_ifs with h1 h2 h3 <;> simp_all <;> omega
  · intro samples p hp
    simp only [analyzeRouteCongestion, List.mem_flatMap, List.mem_filterMap] at hp
    obtain ⟨i, -, j, -, hj⟩ := hp
    split_ifs at hj with hc hl
    cases hj
    exact ⟨hl, hc, rfl⟩

/-- Claim C5 fails as stated: the code's rush-hour test
`7 <= hour <= 9 or 17 <= hour <= 19` is true at local time 09:30
(minute 570 of the day), which lies outside the claimed windows
07:00–09:00 (minutes 420–540) and 17:00–19:00 (minutes 1020–1140). -/
theorem isRushHour_at_0930 :
    isRushHour (hourOfMinutes 570) = true
    ∧ ¬ ((420 ≤ 570 ∧ 570 ≤ 540) ∨ (1020 ≤ 570 ∧ 570 ≤ 1140)) := by
  decide

/-- Claim C5 (amended): the rush-hour condition holds exactly when the
hour component is 7–9 or 17–19, i.e. for local times in [07:00, 10:00)
and [17:00, 20:00); in rush hour the spawn rate is set to 0.5 and the
congestion multiplier is 0.6, otherwise 0.3 and 1.0; and a vehicle whose
draw falls under probability 0.3 has its speed multiplied by the active
multiplier and floored at 5, while other vehicles are untouched. -/
theorem congestion_modulator_policy :
    (∀ t : ℕ, t < 1440 →
      (isRushHour (hourOfMinutes t) = true ↔
        ((420 ≤ t ∧ t < 600) ∨ (1020 ≤ t ∧ t < 1200))))
    ∧ (∀ hour : ℕ, isRushHour hour = true →
        spawnRateAfterCongestion hour = 0.5 ∧ congestionFactor hour = 0.6)
    ∧ (∀ hour : ℕ, isRushHour hour = false →
        spawnRateAfterCongestion hour = 0.3 ∧ congestionFactor hour = 1.0)
    ∧ (∀ (hour : ℕ) (draw : ℝ) (v : Vehicle), draw < 0.3 →
        (simulateCongestionVehicle hour draw v).current_speed
          = max 5 (v.current_speed * congestionFactor hour))
    ∧ (∀ (hour : ℕ) (draw : ℝ) (v : Vehicle), ¬ draw < 0.3 →
        simulateCongestionVehicle hour draw v = v) := by
  refine ⟨?_, ?_, ?_, ?_, ?_⟩
  · intro t ht
    simp only [isRushHour, hourOfMinutes, decide_eq_true_eq]
    omega
  · intro hour h
    simp [spawnRateAfterCongestion, congestionFactor, h]
  · intro hour h
    simp [spawnRateAfterCongestion, congestionFactor, h]
  · intro hour draw v h
    simp [simulateCongestionVehicle, h]
  · intro hour draw v h
    simp [simulateCongestionVehicle, h]

/-- Witness for the amended claim C5 at concrete inputs: 08:00 is rush
hour, hour 8 yields rate 0.5 and factor 0.6, hour 12 yields 0.3 and 1.0. -/
theorem congestion_modulator_policy_witness :
    (isRushHour (hourOfMinutes 480) = true ↔
      ((420 ≤ 480 ∧ 480 < 600) ∨ (1020 ≤ 480 ∧ 480 < 1200)))
    ∧ spawnRateAfterCongestion 8 = 0.5 ∧ congestionFactor 8 = 0.6
    ∧ spawnRateAfterCongestion 12 = 0.3 ∧ congestionFactor 12 = 1.0 :=
  ⟨congestion_modulator_policy.1 480 (by decide),
   (congestion_modulator_policy.2.1 8 (by decide)).1,
   (congestion_modulator_policy.2.1 8 (by decide)).2,
   (congestion_modulator_policy.2.2.1 12 (by decide)).1,
   (congestion_modulator_policy.2.2.1 12 (by decide)).2⟩

/-- Claim C9: grid cells are half-open boxes `[edge i, edge (i+1))` with
edges `lo + i * 100` generated from the bounding box minimum, and a
sample whose coordinate equals the last generated edge — which coincides
with the bounding-box maximum when the box width is a multiple of 100 —
lies in no cell, so it is counted by no cell even though it is inside
the bounding box.  `gridSamples` realizes this: its x edges are
`[0, 100, 200]`, its x maximum is 200, and the sample at x = 200 belongs
to no cell while the sample at the origin does. -/
theorem grid_last_edge_sample_excluded :
    (∀ (lo hi : ℚ) (i : ℕ), i < (binsFor lo hi).length →
        (binsFor lo hi)[i]? = some (lo + i * gridSize))
    ∧ (∀ (bins : List ℚ) (i : ℕ) (x : ℚ),
        cellContains bins i x = true ↔
          ∃ lo hi, bins[i]? = some lo ∧ bins[i + 1]? = some hi ∧ lo ≤ x ∧ x < hi)
    ∧ xBins gridSamples = [0, 100, 200]
    ∧ listMax (gridSamples.map QSample.x) = 200
    ∧ (∀ i : ℕ, cellContains (xBins gridSamples) i 200 = false)
    ∧ (⟨200, 50, 30⟩ : QSample) ∈ gridSamples
    ∧ (∀ i j : ℕ, (⟨200, 50, 30⟩ : QSample) ∉ cellVehicles gridSamples i j)
    ∧ (⟨0, 0, 10⟩ : QSample) ∈ cellVehicles gridSamples 0 0 := by
  have hx : xBins gridSamples = [0, 100, 200] := by
    norm_num [xBins, gridSamples, listMin, listMax, min_def, max_def, binsFor, arange,
      gridSize, show ((3:ℤ)).toNat = 3 from rfl, List.range_succ]
  have hy : yBins gridSamples = [0, 100] := by
    norm_num [yBins, gridSamples, listMin, listMax, min_def, max_def, binsFor, arange,
      gridSize, show ((2:ℤ)).toNat = 2 from rfl, List.range_succ]
  have hxc : ∀ i : ℕ, cellContains (xBins gridSamples) i 200 = false := by
    intro i
    match i with
    | 0 => rw [hx]; decide
    | 1 => rw [hx]; decide
    | (n + 2) =>
      refine cellContains_of_length_le _ _ _ ?_
      rw [hx]; simp
  refine ⟨?_, ?_, hx, by norm_num [gridSamples, listMax, max_def], hxc, by decide, ?_, ?_⟩
  · intro lo hi i h
    unfold binsFor arange at *
    rw [List.getElem?_map, List.getElem?_range (by simpa using h)]
    rfl
  · intro bins i x
    unfold cellContains
    rcases h1 : bins[i]? with _ | lo <;> rcases h2 : bins[i + 1]? with _ | hi <;>
      simp [h1, h2]
  · intro i j
    simp [cellVehicles, List.mem_filter, hxc i]
  · simp only [cellVehicles, hx, hy]
    decide

/-- Claim C3: with a route present, one kinematics update leaves the
position unchanged when the route's start and end coincide, otherwise
advances it by `current_speed × 0.1` along the unit direction vector from
start to end; the new speed is the old speed plus the perturbation
(drawn uniformly within `±(0.2 × max_speed)`) clamped to
`[0, max_speed]`; and the last-update time becomes the computation time. -/
theorem updateVehiclePosition_kinematics (routes : List Route) (sv : ℝ) (now : ℕ)
    (v : Vehicle) (route : Route)
    (hroute : getRouteById routes v.route_id = some route)
    (hsv : |sv| ≤ 0.2 * v.max_speed) :
    ((route.start_x = route.end_x ∧ route.start_y = route.end_y) →
      (updateVehiclePosition routes sv now v).position_x = v.position_x
      ∧ (updateVehiclePosition routes sv now v).position_y = v.position_y)
    ∧ (¬(route.start_x = route.end_x ∧ route.start_y = route.end_y) →
      (updateVehiclePosition routes sv now v).position_x
          = v.position_x + (route.end_x - route.start_x)
              / Real.sqrt ((route.end_x - route.start_x) ^ 2
                  + (route.end_y - route.start_y) ^ 2)
              * (v.current_speed * 0.1)
      ∧ (updateVehiclePosition routes sv now v).position_y
          = v.position_y + (route.end_y - route.start_y)
              / Real.sqrt ((route.end_x - route.start_x) ^ 2
                  + (route.end_y - route.start_y) ^ 2)
              * (v.current_speed * 0.1))
    ∧ (updateVehiclePosition routes sv now v).current_speed
        = max 0 (min v.max_speed (v.current_speed + sv))
    ∧ (updateVehiclePosition routes sv now v).timestamp = now := by
  unfold updateVehiclePosition
  rw [hroute]
  refine ⟨?_, ?_, rfl, rfl⟩
  · rintro ⟨h1, h2⟩
    have hz : Real.sqrt ((route.end_x - route.start_x) ^ 2
        + (route.end_y - route.start_y) ^ 2) = 0 := by
      rw [h1, h2]
      simp [Real.sqrt_zero]
    simp [hz]
  · intro h
    have hpos : 0 < (route.end_x - route.start_x) ^ 2
        + (route.end_y - route.start_y) ^ 2 := by
      rcases not_and_or.mp h with hne | hne
      · have hs : route.end_x - route.start_x ≠ 0 := sub_ne_zero.mpr (Ne.symm hne)
        have := sq_pos_of_ne_zero hs
        nlinarith [sq_nonneg (route.end_y - route.start_y)]
      · have hs : route.end_y - route.start_y ≠ 0 := sub_ne_zero.mpr (Ne.symm hne)
        have := sq_pos_of_ne_zero hs
        nlinarith [sq_nonneg (route.end_x - route.start_x)]
    have hd : 0 < Real.sqrt ((route.end_x - route.start_x) ^ 2
        + (route.end_y - route.start_y) ^ 2) := Real.sqrt_pos.mpr hpos
    simp [hd]

/-- Witness for claim C3 on `testRoute` (direction (3, 4), length 5) and
`testVehicle` (speed 10, maximum 100) with perturbation 5 at time 7. -/
theorem updateVehiclePosition_kinematics_witness :
    ((updateVehiclePosition [testRoute] 5 7 testVehicle).position_x
        = testVehicle.position_x + (testRoute.end_x - testRoute.start_x)
            / Real.sqrt ((testRoute.end_x - testRoute.start_x) ^ 2
                + (testRoute.end_y - testRoute.start_y) ^ 2)
            * (testVehicle.current_speed * 0.1))
    ∧ (updateVehiclePosition [testRoute] 5 7 testVehicle).current_speed
        = max 0 (min testVehicle.max_speed (testVehicle.current_speed + 5))
    ∧ (updateVehiclePosition [testRoute] 5 7 testVehicle).timestamp = 7 :=
  ⟨((updateVehiclePosition_kinematics [testRoute] 5 7 testVehicle testRoute
      (by simp [getRouteById, testRoute, testVehicle])
      (by norm_num [testVehicle])).2.1 (by norm_num [testRoute])).1,
   (updateVehiclePosition_kinematics [testRoute] 5 7 testVehicle testRoute
      (by simp [getRouteById, testRoute, testVehicle])
      (by norm_num [testVehicle])).2.2.1,
   (updateVehiclePosition_kinematics [testRoute] 5 7 testVehicle testRoute
      (by simp [getRouteById, testRoute, testVehicle])
      (by norm_num [testVehicle])).2.2.2⟩

/-- Claim C4: the speed invariant `0 ≤ current_speed ≤ max_speed` is
preserved by the kinematics update, preserved by the congestion modulator
for any vehicle whose maximum speed is at least the floor 5 (true of
every generated vehicle), and holds for freshly spawned vehicles, whose
current speed is drawn from `[0, 0.8 × max_speed]` with
`max_speed ≥ 50`. -/
theorem speed_invariant_preserved :
    (∀ (routes : List Route) (sv : ℝ) (now : ℕ) (v : Vehicle),
      0 ≤ v.current_speed → v.current_speed ≤ v.max_speed →
        0 ≤ (updateVehiclePosition routes sv now v).current_speed
        ∧ (updateVehiclePosition routes sv now v).current_speed
            ≤ (updateVehiclePosition routes sv now v).max_speed)
    ∧ (∀ (hour : ℕ) (draw : ℝ) (v : Vehicle),
        0 ≤ v.current_speed → v.current_speed ≤ v.max_speed → 5 ≤ v.max_speed →
          0 ≤ (simulateCongestionVehicle hour draw v).current_speed
          ∧ (simulateCongestionVehicle hour draw v).current_speed
              ≤ (simulateCongestionVehicle hour draw v).max_speed)
    ∧ (∀ (vid rid vt : String) (ms cs px py : ℝ) (now : ℕ),
        0 ≤ cs → cs ≤ 0.8 * ms → 50 ≤ ms →
          0 ≤ (Vehicle.generate_random vid rid vt ms cs px py now).current_speed
          ∧ (Vehicle.generate_random vid rid vt ms cs px py now).current_speed
              ≤ (Vehicle.generate_random vid rid vt ms cs px py now).max_speed
          ∧ 5 ≤ (Vehicle.generate_random vid rid vt ms cs px py now).max_speed) := by
  refine ⟨?_, ?_, ?_⟩
  · intro routes sv now v h0 h1
    unfold updateVehiclePosition
    rcases getRouteById routes v.route_id with _ | route
    · exact ⟨h0, h1⟩
    · exact ⟨le_max_left 0 _, max_le (le_trans h0 h1) (min_le_left _ _)⟩
  · intro hour draw v h0 h1 h5
    unfold simulateCongestionVehicle
    have hf0 : 0 ≤ congestionFactor hour := by
      unfold congestionFactor; split_ifs <;> norm_num
    have hf1 : congestionFactor hour ≤ 1 := by
      unfold congestionFactor; split_ifs <;> norm_num
    split_ifs with hd
    · refine ⟨le_trans (by norm_num) (le_max_left 5 _), max_le h5 ?_⟩
      calc v.current_speed * congestionFactor hour
          ≤ v.current_speed * 1 := mul_le_mul_of_nonneg_left hf1 h0
        _ = v.current_speed := mul_one _
        _ ≤ v.max_speed := h1
    · exact ⟨h0, h1⟩
  · intro vid rid vt ms cs px py now h0 h08 h50
    unfold Vehicle.generate_random
    exact ⟨h0, by nlinarith, by nlinarith⟩

/-- Witness for claim C4: all three preservation facts instantiated on
concrete vehicles and draws. -/
theorem speed_invariant_preserved_witness :
    (0 ≤ (updateVehiclePosition [] 0 0 testVehicle).current_speed
      ∧ (updateVehiclePosition [] 0 0 testVehicle).current_speed
          ≤ (updateVehiclePosition [] 0 0 testVehicle).max_speed)
    ∧ (0 ≤ (simulateCongestionVehicle 8 0 testVehicle).current_speed
      ∧ (simulateCongestionVehicle 8 0 testVehicle).current_speed
          ≤ (simulateCongestionVehicle 8 0 testVehicle).max_speed)
    ∧ (0 ≤ (Vehicle.generate_random "nv" "r1" "car" 100 40 0 0 0).current_speed
      ∧ (Vehicle.generate_random "nv" "r1" "car" 100 40 0 0 0).current_speed
          ≤ (Vehicle.generate_random "nv" "r1" "car" 100 40 0 0 0).max_speed
      ∧ 5 ≤ (Vehicle.generate_random "nv" "r1" "car" 100 40 0 0 0).max_speed) :=
  ⟨speed_invariant_preserved.1 [] 0 0 testVehicle
      (by norm_num [testVehicle]) (by norm_num [testVehicle]),
   speed_invariant_preserved.2.1 8 0 testVehicle
      (by norm_num [testVehicle]) (by norm_num [testVehicle]) (by norm_num [testVehicle]),
   speed_invariant_preserved.2.2 "nv" "r1" "car" 100 40 0 0 0
      (by norm_num) (by norm_num) (by norm_num)⟩

/-- Claim C6: a vehicle is removed by the despawn pass exactly when its
route is gone from the catalog, or its Euclidean distance to the route
end is below 50, or its despawn draw is below 0.1; membership in the
surviving registry is membership before with a false removal condition;
and distance below 50 forces removal regardless of the draw. -/
theorem shouldRemove_characterization (routes : List Route) (draw : ℝ) (v : Vehicle) :
    (shouldRemove routes draw v = true ↔
      (getRouteById routes v.route_id = none ∨
        ∃ route, getRouteById routes v.route_id = some route ∧
          (distanceToEnd v route < 50 ∨ draw < 0.1)))
    ∧ (∀ (draws : String → ℝ) (vehicles : List Vehicle),
        v ∈ removeVehicles routes draws vehicles ↔
          (v ∈ vehicles ∧ shouldRemove routes (draws v.vehicle_id) v = false))
    ∧ (∀ route, getRouteById routes v.route_id = some route →
        distanceToEnd v route < 50 → shouldRemove routes draw v = true) := by
  refine ⟨?_, ?_, ?_⟩
  · unfold shouldRemove
    rcases h : getRouteById routes v.route_id with _ | route
    · simp [h]
    · simp only [h]
      split_ifs with hc <;> simp [hc]
  · intro draws vehicles
    simp [removeVehicles, List.mem_filter]
  · intro route hroute hdist
    simp [shouldRemove, hroute, hdist]

/-- Claim C8: a vehicle contributes a travel-time estimate exactly when it
has at least two samples and positive mean speed, the estimate being the
leg-sum distance (in km, floored at 0.1) divided by the mean speed, times
60 minutes; vehicles with fewer samples or nonpositive mean speed
contribute nothing, and a route with no contributing vehicle produces no
summary row. -/
theorem vehicleTravelTime_spec :
    (∀ samples : List Sample, 2 ≤ samples.length → 0 < meanSpeed samples →
      vehicleTravelTime samples
        = some (max (pathDistance samples) 0.1 / meanSpeed samples * 60))
    ∧ (∀ samples : List Sample, samples.length < 2 → vehicleTravelTime samples = none)
    ∧ (∀ samples : List Sample, meanSpeed samples ≤ 0 → vehicleTravelTime samples = none)
    ∧ (∀ groups : List (List Sample), groups.filterMap vehicleTravelTime = [] →
        routeTravelTimes groups = none) := by
  refine ⟨?_, ?_, ?_, ?_⟩
  · intro samples h2 hm
    unfold vehicleTravelTime estimateRouteDistance
    rw [if_pos h2, if_pos hm, if_neg (by omega)]
  · intro samples h
    unfold vehicleTravelTime
    rw [if_neg (by omega)]
  · intro samples h
    unfold vehicleTravelTime
    split_ifs with h2 hm
    · exact absurd hm (not_lt.mpr h)
    · rfl
    · rfl
  · intro groups h
    unfold routeTravelTimes
    simp [h]

/-- Witness for claim C8: two samples 1000 position units apart (10 km)
at mean speed 60 km/h give a 10 minute estimate. -/
theorem vehicleTravelTime_spec_witness :
    vehicleTravelTime [tripSample1, tripSample2] = some 10 := by
  have hm : meanSpeed [tripSample1, tripSample2] = 60 := by
    norm_num [meanSpeed, tripSample1, tripSample2]
  have hp : pathDistance [tripSample1, tripSample2] = 10 := by
    simp only [pathDistance, tripSample1, tripSample2]
    rw [show ((0:ℝ) - 0) ^ 2 + (1000 - 0) ^ 2 = 1000 ^ 2 by norm_num,
      Real.sqrt_sq (by norm_num : (0:ℝ) ≤ 1000)]
    norm_num
  rw [vehicleTravelTime_spec.1 [tripSample1, tripSample2] (by simp)
      (by rw [hm]; norm_num), hp, hm,
    max_eq_left (by norm_num : (0.1:ℝ) ≤ 10)]
  norm_num

/-- Claim C10: a kinematics update on a vehicle whose route is missing
from the catalog returns the vehicle entirely unchanged — position, speed
and timestamp included — and such a vehicle is removed unconditionally by
the later despawn pass. -/
theorem updateVehiclePosition_missing_route (routes : List Route) (sv : ℝ) (now : ℕ)
    (v : Vehicle) (h : getRouteById routes v.route_id = none) :
    updateVehiclePosition routes sv now v = v ∧
    ∀ draw : ℝ, shouldRemove routes draw v = true := by
  constructor
  · simp [updateVehiclePosition, h]
  · intro draw
    simp [shouldRemove, h]

/-- Witness for claim C10 with an empty catalog. -/
theorem updateVehiclePosition_missing_route_witness :
    updateVehiclePosition [] 0 5 testVehicle = testVehicle ∧
    ∀ draw : ℝ, shouldRemove [] draw testVehicle = true :=
  updateVehiclePosition_missing_route [] 0 5 testVehicle rfl

/-- The spawned vehicle carries the route identifier of the route it was
spawned on. -/
theorem spawnedVehicle_route_id (route : Route) (r : SpawnRand) :
    (spawnedVehicle route r).route_id = route.route_id := rfl

/-- Appending one vehicle raises the count of its own route by one and
leaves every other count unchanged. -/
theorem countOnRoute_append (vs : List Vehicle) (nv : Vehicle) (rid : String) :
    countOnRoute (vs ++ [nv]) rid
      = countOnRoute vs rid + (if nv.route_id == rid then 1 else 0) := by
  unfold countOnRoute
  rw [List.filter_append]
  cases h : nv.route_id == rid <;>
    simp [List.filter_cons, h, List.length_append]

/-- One spawn iteration keeps every per-route count at or below the
limit. -/
theorem spawnOnRoute_count_le_max (s : ℚ) (vs : List Vehicle) (r : SpawnRand)
    (route : Route) (rid : String)
    (h20 : countOnRoute vs rid ≤ maxVehiclesPerRoute) :
    countOnRoute (spawnOnRoute s vs r route) rid ≤ maxVehiclesPerRoute := by
  unfold spawnOnRoute
  split_ifs with h1 h2
  · rw [countOnRoute_append, spawnedVehicle_route_id]
    cases hbeq : route.route_id == rid
    · simpa [hbeq] using h20
    · have heq : route.route_id = rid := eq_of_beq hbeq
      have hlt := h1.1
      rw [heq] at hlt
      simp only [hbeq, if_true]
      omega
  · exact h20
  · exact h20

/-- One spawn iteration on a different route leaves a count unchanged. -/
theorem spawnOnRoute_count_eq_of_ne (s : ℚ) (vs : List Vehicle) (r : SpawnRand)
    (route : Route) (rid : String) (h : (route.route_id == rid) = false) :
    countOnRoute (spawnOnRoute s vs r route) rid = countOnRoute vs rid := by
  unfold spawnOnRoute
  split_ifs with h1 h2
  · rw [countOnRoute_append, spawnedVehicle_route_id]
    simp [h]
  · rfl
  · rfl

/-- One spawn iteration raises any count by at most one. -/
theorem spawnOnRoute_count_le_succ (s : ℚ) (vs : List Vehicle) (r : SpawnRand)
    (route : Route) (rid : String) :
    countOnRoute (spawnOnRoute s vs r route) rid ≤ countOnRoute vs rid + 1 := by
  unfold spawnOnRoute
  split_ifs with h1 h2
  · rw [countOnRoute_append, spawnedVehicle_route_id]
    cases hbeq : route.route_id == rid <;> simp [hbeq]
  · omega
  · omega

/-- The whole spawn pass preserves the per-route limit. -/
theorem spawnNewVehicles_bound (s : ℚ) (pairs : List (Route × SpawnRand))
    (vs : List Vehicle) (rid : String)
    (h : countOnRoute vs rid ≤ maxVehiclesPerRoute) :
    countOnRoute (spawnNewVehicles s pairs vs) rid ≤ maxVehiclesPerRoute := by
  induction pairs generalizing vs with
  | nil => simpa [spawnNewVehicles] using h
  | cons p rest ih =>
    simp only [spawnNewVehicles]
    exact ih _ (spawnOnRoute_count_le_max s vs p.2 p.1 rid h)

/-- The spawn pass does not change the count of a route it never
visits. -/
theorem spawnNewVehicles_eq_of_not_mem (s : ℚ) (pairs : List (Route × SpawnRand))
    (vs : List Vehicle) (rid : String)
    (h : rid ∉ pairs.map (fun p => p.1.route_id)) :
    countOnRoute (spawnNewVehicles s pairs vs) rid = countOnRoute vs rid := by
  induction pairs generalizing vs with
  | nil => simp [spawnNewVehicles]
  | cons p rest ih =>
    simp only [List.map_cons, List.mem_cons, not_or] at h
    simp only [spawnNewVehicles]
    rw [ih _ h.2, spawnOnRoute_count_eq_of_ne]
    exact beq_eq_false_iff_ne.mpr (fun hc => h.1 hc.symm)

/-- With pairwise-distinct route identifiers the spawn pass adds at most
one vehicle per route. -/
theorem spawnNewVehicles_at_most_one (s : ℚ) (pairs : List (Route × SpawnRand))
    (vs : List Vehicle) (rid : String)
    (hnd : (pairs.map (fun p => p.1.route_id)).Nodup) :
    countOnRoute (spawnNewVehicles s pairs vs) rid ≤ countOnRoute vs rid + 1 := by
  induction pairs generalizing vs with
  | nil => simp [spawnNewVehicles]
  | cons p rest ih =>
    simp only [List.map_cons, List.nodup_cons] at hnd
    simp only [spawnNewVehicles]
    by_cases heq : p.1.route_id = rid
    · rw [spawnNewVehicles_eq_of_not_mem s rest _ rid (heq ▸ hnd.1)]
      exact spawnOnRoute_count_le_succ s vs p.2 p.1 rid
    · calc countOnRoute (spawnNewVehicles s rest (spawnOnRoute s vs p.2 p.1)) rid
          ≤ countOnRoute (spawnOnRoute s vs p.2 p.1) rid + 1 := ih _ hnd.2
        _ = countOnRoute vs rid + 1 := by
            rw [spawnOnRoute_count_eq_of_ne s vs p.2 p.1 rid
              (beq_eq_false_iff_ne.mpr heq)]

/-- Claim C7: if every per-route count is at most `max_vehicles_per_route`
before the spawn pass, it still is afterwards; with distinct catalog route
identifiers the pass adds at most one vehicle per route; and a route whose
count is not strictly below the limit spawns nothing. -/
theorem spawn_respects_route_limit (spawn_rate : ℚ) (pairs : List (Route × SpawnRand))
    (vehicles : List Vehicle) (rid : String)
    (hinv : countOnRoute vehicles rid ≤ maxVehiclesPerRoute) :
    countOnRoute (spawnNewVehicles spawn_rate pairs vehicles) rid ≤ maxVehiclesPerRoute
    ∧ ((pairs.map (fun p => p.1.route_id)).Nodup →
        countOnRoute (spawnNewVehicles spawn_rate pairs vehicles) rid
          ≤ countOnRoute vehicles rid + 1)
    ∧ (∀ (r : SpawnRand) (route : Route),
        ¬ countOnRoute vehicles route.route_id < maxVehiclesPerRoute →
          spawnOnRoute spawn_rate vehicles r route = vehicles) :=
  ⟨spawnNewVehicles_bound _ _ _ _ hinv,
   fun hnd => spawnNewVehicles_at_most_one _ _ _ _ hnd,
   fun r route hge => by
     unfold spawnOnRoute
     rw [if_neg (fun hc => hge hc.1)]⟩

/-- Witness for claim C7 on a one-route catalog and an empty registry. -/
theorem spawn_respects_route_limit_witness :
    countOnRoute (spawnNewVehicles 0.3 [(testRoute, testSpawnRand)] []) "r1"
        ≤ maxVehiclesPerRoute
    ∧ countOnRoute (spawnNewVehicles 0.3 [(testRoute, testSpawnRand)] []) "r1"
        ≤ countOnRoute [] "r1" + 1 :=
  ⟨(spawn_respects_route_limit 0.3 [(testRoute, testSpawnRand)] [] "r1"
      (by simp [countOnRoute])).1,
   (spawn_respects_route_limit 0.3 [(testRoute, testSpawnRand)] [] "r1"
      (by simp [countOnRoute])).2.1 (by simp)⟩

/-- The kinematics update never changes the vehicle identifier. -/
theorem updateVehiclePosition_vehicle_id (routes : List Route) (sv : ℝ) (now : ℕ)
    (v : Vehicle) :
    (updateVehiclePosition routes sv now v).vehicle_id = v.vehicle_id := by
  unfold updateVehiclePosition
  cases getRouteById routes v.route_id <;> rfl

/-- When no persistence call fails, the update-and-persist loop updates and
persists every vehicle in order. -/
theorem persistPhase_ok (routes : List Route) (variations : String → ℝ) (now : ℕ)
    (fail : String → Bool) (vs : List Vehicle)
    (h : ∀ u ∈ vs, fail u.vehicle_id = false) :
    persistPhase routes variations now fail vs
      = (vs.map (fun u => updateVehiclePosition routes (variations u.vehicle_id) now u),
         vs.map Vehicle.vehicle_id, false) := by
  induction vs with
  | nil => rfl
  | cons v rest ih =>
    have hv : fail v.vehicle_id = false := h v (by simp)
    simp only [persistPhase, updateVehiclePosition_vehicle_id, hv, Bool.false_eq_true,
      if_false, ih (fun u hu => h u (by simp [hu])), List.map_cons]

/-- When the sink first fails on vehicle `v`, the loop stops there: the
prefix is updated and persisted, `v` is updated in memory but not
persisted, and the suffix is untouched. -/
theorem persistPhase_fail (routes : List Route) (variations : String → ℝ) (now : ℕ)
    (fail : String → Bool) (pre : List Vehicle) (v : Vehicle) (post : List Vehicle)
    (hpre : ∀ u ∈ pre, fail u.vehicle_id = false) (hv : fail v.vehicle_id = true) :
    persistPhase routes variations now fail (pre ++ v :: post)
      = (pre.map (fun u => updateVehiclePosition routes (variations u.vehicle_id) now u)
          ++ updateVehiclePosition routes (variations v.vehicle_id) now v :: post,
         pre.map Vehicle.vehicle_id, true) := by
  induction pre with
  | nil =>
    simp only [List.nil_append, persistPhase, updateVehiclePosition_vehicle_id, hv,
      if_true, List.map_nil]
  | cons u rest ih =>
    have hu : fail u.vehicle_id = false := hpre u (by simp)
    simp only [List.cons_append, persistPhase, updateVehiclePosition_vehicle_id, hu,
      Bool.false_eq_true, if_false, List.append_eq,
      ih (fun w hw => hpre w (by simp [hw])), List.map_cons]

/-- Claim C1 fails as stated: on an empty catalog with two vehicles and a
sink rejecting the first vehicle's write, the tick is aborted — the second
vehicle is not persisted (no identifier is persisted at all) and the
despawn pass is skipped, leaving it in the registry with its old timestamp
even though its removal condition holds unconditionally. -/
theorem simulationStep_failure_not_isolated :
    (∀ draw : ℝ, shouldRemove [] draw cexVehicleB = true)
    ∧ simulationStep [] (fun _ => 0) 1 (fun id => id == "v1") [] (fun _ => 1) 12
        (fun _ => 1) cexState
      = ({ vehicles := [testVehicle, cexVehicleB], spawn_rate := 0.3 }, [])
    ∧ cexVehicleB.timestamp = 0 := by
  refine ⟨?_, ?_, rfl⟩
  · intro draw
    simp [shouldRemove, getRouteById]
  · unfold simulationStep
    rw [show cexState.vehicles = [] ++ testVehicle :: [cexVehicleB] from rfl,
      persistPhase_fail [] (fun _ => 0) 1 (fun id => id == "v1") [] testVehicle
        [cexVehicleB] (by simp) (by simp [testVehicle])]
    simp [updateVehiclePosition, getRouteById, testVehicle, cexState]

/-- Claim C1 (amended): the whole tick body runs inside one exception
handler, so a persistence failure on one vehicle aborts the remainder of
the tick — vehicles before the failing one are updated in memory and
persisted, the failing vehicle is updated in memory but not persisted,
vehicles after it are untouched and not persisted, and spawning,
despawning and congestion modulation are all skipped, with the spawn rate
unchanged — while the step itself still returns, so the loop survives;
when no persistence call fails, every vehicle is updated and persisted
and all three later passes run. -/
theorem simulationStep_failure_aborts_tick (routes : List Route)
    (variations : String → ℝ) (now : ℕ) (fail : String → Bool)
    (spawn_rands : List SpawnRand) (despawn_draws : String → ℝ) (hour : ℕ)
    (congestion_draws : String → ℝ) (st : SimState) (pre : List Vehicle)
    (v : Vehicle) (post : List Vehicle)
    (hsplit : st.vehicles = pre ++ v :: post)
    (hpre : ∀ u ∈ pre, fail u.vehicle_id = false)
    (hv : fail v.vehicle_id = true) :
    simulationStep routes variations now fail spawn_rands despawn_draws hour
        congestion_draws st
      = ({ vehicles :=
             pre.map (fun u => updateVehiclePosition routes (variations u.vehicle_id) now u)
               ++ updateVehiclePosition routes (variations v.vehicle_id) now v :: post,
           spawn_rate := st.spawn_rate },
         pre.map Vehicle.vehicle_id)
    ∧ (∀ st2 : SimState, (∀ u ∈ st2.vehicles, fail u.vehicle_id = false) →
        simulationStep routes variations now fail spawn_rands despawn_draws hour
            congestion_draws st2
          = ({ vehicles := (simulateCongestion hour congestion_draws
                  (removeVehicles routes despawn_draws
                    (spawnNewVehicles st2.spawn_rate (routes.zip spawn_rands)
                      (st2.vehicles.map (fun u =>
                        updateVehiclePosition routes (variations u.vehicle_id) now u))))).2,
               spawn_rate := spawnRateAfterCongestion hour },
             st2.vehicles.map Vehicle.vehicle_id)) := by
  constructor
  · unfold simulationStep
    rw [hsplit, persistPhase_fail routes variations now fail pre v post hpre hv]
    rfl
  · intro st2 h2
    unfold simulationStep
    rw [persistPhase_ok routes variations now fail st2.vehicles h2]
    rfl

/-- Witness for the amended claim C1: the concrete aborted tick of the
counterexample scenario, derived by instantiating the general theorem. -/
theorem simulationStep_failure_aborts_tick_witness :
    simulationStep [] (fun _ => 0) 1 (fun id => id == "v1") [] (fun _ => 1) 12
        (fun _ => 1) cexState
      = ({ vehicles := [updateVehiclePosition [] 0 1 testVehicle, cexVehicleB],
           spawn_rate := cexState.spawn_rate },
         []) :=
  (simulationStep_failure_aborts_tick [] (fun _ => 0) 1 (fun id => id == "v1") []
    (fun _ => 1) 12 (fun _ => 1) cexState [] testVehicle [cexVehicleB] rfl
    (by simp) (by simp [testVehicle])).1

/-- Witness for claim C2: on `congSamples` the detector emits the cell
`[0,100) × [0,100)` as a `low` congestion point, and that point satisfies
the emission properties of the classification theorem. -/
theorem classifyCongestion_precedence_witness :
    (⟨50, 50, "low", 10, 5⟩ : CongestionPoint).congestion_level ≠ "none"
    ∧ 5 ≤ (⟨50, 50, "low", 10, 5⟩ : CongestionPoint).vehicle_count
    ∧ (⟨50, 50, "low", 10, 5⟩ : CongestionPoint).congestion_level
        = classifyCongestion (⟨50, 50, "low", 10, 5⟩ : CongestionPoint).average_speed
            (⟨50, 50, "low", 10, 5⟩ : CongestionPoint).vehicle_count := by
  have hx : xBins congSamples = [0, 100, 200] := by
    norm_num [xBins, congSamples, listMin, listMax, min_def, max_def, binsFor, arange,
      gridSize, show ((3:ℤ)).toNat = 3 from rfl, List.range_succ]
  have hy : yBins congSamples = [0, 100, 200] := by
    norm_num [yBins, congSamples, listMin, listMax, min_def, max_def, binsFor, arange,
      gridSize, show ((3:ℤ)).toNat = 3 from rfl, List.range_succ]
  have hcell : cellVehicles congSamples 0 0
      = [⟨0, 0, 10⟩, ⟨0, 0, 10⟩, ⟨0, 0, 10⟩, ⟨0, 0, 10⟩, ⟨0, 0, 10⟩] := by
    simp only [cellVehicles, hx, hy]
    decide
  have hmem : (⟨50, 50, "low", 10, 5⟩ : CongestionPoint) ∈ analyzeRouteCongestion congSamples := by
    simp only [analyzeRouteCongestion, hx, hy]
    apply List.mem_flatMap.mpr
    refine ⟨0, by simp, ?_⟩
    apply List.mem_filterMap.mpr
    refine ⟨0, by simp, ?_⟩
    rw [hcell]
    norm_num [qMean, classifyCongestion, hx, hy]
    intro h
    exact absurd h (by simp)
  exact classifyCongestion_precedence.2.2.2.2.2 congSamples _ hmem

/-- Witness for claim C6: a vehicle standing on its route's end point is
removed even with a draw (1) that never triggers the probabilistic
branch. -/
theorem shouldRemove_characterization_witness :
    shouldRemove [testRoute] 1 nearEndVehicle = true :=
  (shouldRemove_characterization [testRoute] 1 nearEndVehicle).2.2 testRoute
    (by simp [getRouteById, testRoute, nearEndVehicle])
    (by norm_num [distanceToEnd, nearEndVehicle, testRoute, Real.sqrt_zero])

/-- Witness for claim C9: the second edge of the `[0, 200]` box is 100,
index 5 is beyond every cell, and the far sample is in no analyzed cell. -/
theorem grid_last_edge_sample_excluded_witness :
    (binsFor 0 200)[1]? = some (0 + 1 * gridSize)
    ∧ cellContains (xBins gridSamples) 5 200 = false
    ∧ (⟨200, 50, 30⟩ : QSample) ∉ cellVehicles gridSamples 0 0 :=
  ⟨grid_last_edge_sample_excluded.1 0 200 1
      (by norm_num [binsFor, arange, gridSize, show ((3:ℤ)).toNat = 3 from rfl]),
   grid_last_edge_sample_excluded.2.2.2.2.1 5,
   grid_last_edge_sample_excluded.2.2.2.2.2.2.1 0 0⟩

end TrafficSense
